/-
Verification of the composite backend service ("Main-Backend-Service").

This file shallowly embeds the parts of the Python source that the claims
touch:
  * `src/pubsub/subscribers.py`   (message handlers and ack/nack decisions)
  * `src/email_service.py`        (send_email returns Bool, never raises)
  * `src/routers/composite_router.py`
       (get_firebase_uid_from_request, forward_request,
        get_user_id_from_firebase_uid, validate_user_exists,
        get_user_feed / get_user_activity fan-out, create_event, sync_user)
  * `src/pubsub/publishers.py`    (publish_event_created / publish_user_created)
  * `src/cross_account_auth.py`   (get_identity_token token cache)

External effects (HTTP responses, exceptions raised by the transport, SMTP
outcomes, clock readings) are passed in as explicit oracle arguments; the
embedded functions compute exactly the control flow the Python code performs
on those outcomes.  Python dicts are modelled as association lists with
first-match lookup and replace-or-append update, and Python truthiness of
optional strings / ints is modelled explicitly.
-/
import Mathlib

namespace MainBackend

/-! ## Python-style helpers -/

/-- Truthiness of an optional string: `None` and `""` are falsy. -/
def strTruthy : Option String → Bool
  | none => false
  | some s => s ≠ ""

/-- Truthiness of an optional integer: `None` and `0` are falsy. -/
def natTruthy : Option Nat → Bool
  | none => false
  | some n => n ≠ 0

/-- Python `a or b` on optional strings: first operand if truthy, else second. -/
def pyOr (a b : Option String) : Option String :=
  if strTruthy a then a else b

/-- Python `d.get(k) or default` for a string field. -/
def pyOrStr (o : Option String) (d : String) : String :=
  match o with
  | some s => if s ≠ "" then s else d
  | none => d

/-- Splitting a character list at whitespace (pieces between separators,
empties included, as Python's split-then-discard produces them). -/
def splitWsAux : List Char → List Char → List (List Char)
  | [], acc => [acc.reverse]
  | c :: cs, acc =>
      if c.isWhitespace then acc.reverse :: splitWsAux cs []
      else splitWsAux cs (c :: acc)

/-- Python `str.split()` with no argument: split on whitespace, dropping
empty pieces. -/
def pySplitWs (s : String) : List String :=
  ((splitWsAux s.data []).map (fun l => String.mk l)).filter (fun t => t ≠ "")

/-- The characters before the first `@`. -/
def takeUntilAt : List Char → List Char
  | [] => []
  | c :: cs => if c = '@' then [] else c :: takeUntilAt cs

/-- Python `email.split("@")[0]`: the part before the first `@`
(the whole string when there is no `@`). -/
def emailLocalPart (e : String) : String :=
  String.mk (takeUntilAt e.data)

/-- Association list standing for a Python dict (single binding per key). -/
abbrev PyDict (α : Type) := List (String × α)

/-- Dict lookup: value of the first binding of `k`, if any. -/
def dictGet {α : Type} : PyDict α → String → Option α
  | [], _ => none
  | (k0, v0) :: rest, k => if k0 = k then some v0 else dictGet rest k

/-- Dict assignment `d[k] = v`: replace the existing binding in place,
append a new binding otherwise (Python insertion-order semantics). -/
def dictSet {α : Type} : PyDict α → String → α → PyDict α
  | [], k, v => [(k, v)]
  | (k0, v0) :: rest, k, v =>
      if k0 = k then (k, v) :: rest else (k0, v0) :: dictSet rest k v

/-- The keys of a dict, in insertion order. -/
def dictKeys {α : Type} (d : PyDict α) : List String := d.map Prod.fst

/-! ## Upstream call outcomes

A branch call to an upstream service, as seen by the caller after the
`httpx` request either returned a response or raised. -/

/-- Outcome of one raw `httpx` call made inside a fan-out branch or a
validation helper: a response with a status code (only a 200 body is ever
used by this code), or a raised exception (connection failure, timeout,
decode error, ...). -/
inductive Branch (α : Type) where
  | ok (payload : α)
  | httpStatus (code : Nat)
  | raised (msg : String)
  deriving DecidableEq, Repr

/-- A branch that did not come back with a usable 200 response. -/
def branchFailed {α : Type} : Branch α → Bool
  | .ok _ => false
  | _ => true

/-- A branch that raised an exception (the only kind of branch failure the
fan-out code records in its `errors` dict). -/
def branchRaised {α : Type} : Branch α → Bool
  | .raised _ => true
  | _ => false

/-! ## `src/email_service.py`

`send_email` wraps every failure (missing SMTP configuration,
`SMTPAuthenticationError`, `SMTPException`, any other exception) in a
`return False`; it never lets an exception escape.  The embedding therefore
takes the dispatch outcome as a `Bool`. -/

/-- Outcome of `send_email`: `true` iff the SMTP hand-off succeeded.  All
failure modes of the Python function are `return False`; none raise. -/
def send_email (smtpConfigured : Bool) (smtpOutcome : Bool) : Bool :=
  if ¬ smtpConfigured then false else smtpOutcome

/-! ## `src/pubsub/subscribers.py` -/

/-- A user record as returned by the Users service (`user.get(...)` fields
the subscriber inspects). -/
structure UserRec where
  user_id : Option Nat
  email : Option String
  first_name : Option String
  deriving DecidableEq, Repr

/-- Function `get_user_by_id`: 200 parses the user, 404 and every other status and
every exception are caught and return `None`. -/
def get_user_by_id (o : Branch UserRec) : Option UserRec :=
  match o with
  | .ok u => some u
  | _ => none

/-- Timeout (seconds) used by the subscriber's user lookup. -/
def get_user_by_id_timeout : Nat := 5

/-- One observable step of a subscriber callback, in execution order. -/
inductive SubStep where
  | parsed
  | lookedUp (user_id : Nat)
  | emailDispatched (rcpt : String) (ok : Bool)
  | acked
  | nacked
  deriving DecidableEq, Repr

/-- The fields `handle_event_created` reads out of a decoded message body. -/
structure EventMsgBody where
  event_id : Option Nat
  user_id : Option Nat
  deriving DecidableEq, Repr

/-- The fields `handle_user_created` reads out of a decoded message body. -/
structure UserMsgBody where
  email : Option String
  first_name : Option String
  user_id : Option Nat
  deriving DecidableEq, Repr

/-- Handler `handle_event_created` as a trace of steps ending in the ack/nack
decision.  `body = none` is a message whose data is not valid JSON
(`json.loads` raises, the `JSONDecodeError` arm nacks).  `lookupO uid` is the
outcome of the Users-service lookup for `uid`; `emailOk` is what
`send_email` returns.  A falsy (`None`/`0`) `user_id`, a failed lookup and a
falsy email address are the recognized nothing-to-do cases: each acks.
The email outcome is only logged; both values fall through to `message.ack()`. -/
def handle_event_created (body : Option EventMsgBody)
    (lookupO : Nat → Branch UserRec) (emailOk : Bool) : List SubStep :=
  match body with
  | none => [.nacked]
  | some m =>
      if ¬ natTruthy m.user_id then [.parsed, .acked]
      else
        let uid := m.user_id.getD 0
        match get_user_by_id (lookupO uid) with
        | none => [.parsed, .lookedUp uid, .acked]
        | some user =>
            if ¬ strTruthy user.email then [.parsed, .lookedUp uid, .acked]
            else
              [.parsed, .lookedUp uid,
               .emailDispatched (user.email.getD "") emailOk, .acked]

/-- Handler `handle_user_created` as a trace: malformed JSON nacks; a falsy email
field acks without dispatch; otherwise the welcome email is dispatched and
the message is acked whatever `send_email` returned. -/
def handle_user_created (body : Option UserMsgBody) (emailOk : Bool) :
    List SubStep :=
  match body with
  | none => [.nacked]
  | some m =>
      if ¬ strTruthy m.email then [.parsed, .acked]
      else [.parsed, .emailDispatched (m.email.getD "") emailOk, .acked]

/-! ## `src/routers/composite_router.py`: identity extraction -/

/-- Result of `get_firebase_uid_from_request`: the identity string, or the
raised 401 `HTTPException`. -/
inductive AuthResult where
  | ok (uid : String)
  | unauthorized401
  deriving DecidableEq, Repr

/-- Helper `get_firebase_uid_from_request`: `request.state.firebase_uid` if truthy,
else the `x-firebase-uid` header or (Python `or`) the `X-Firebase-Uid`
header; 401 only when the resulting value is still falsy.  No verification
of the header value happens anywhere in the function. -/
def get_firebase_uid_from_request (state hdrLower hdrUpper : Option String) :
    AuthResult :=
  let fb := if strTruthy state then state else pyOr hdrLower hdrUpper
  match fb with
  | some s => if s ≠ "" then .ok s else .unauthorized401
  | none => .unauthorized401

/-! ## `forward_request` -/

/-- What the `httpx` request inside `forward_request` came back with.
`resp` carries the status code, the parsed success body (used when the
status is < 400), and for error statuses the result of trying to read a
`detail` field out of the JSON error body: `some (some d)` = body parsed
and has a detail field, `some none` = body parsed without one, `none` =
body is not JSON; `rawText` is `response.text`.  `timedOut` is an `httpx`
timeout exception and `connectFailed` any other `httpx.RequestError`. -/
inductive UpstreamOutcome (α : Type) where
  | resp (code : Nat) (body : α) (errDetail : Option (Option String))
      (rawText : String)
  | timedOut (msg : String)
  | connectFailed (msg : String)
  deriving DecidableEq, Repr

/-- Result of `forward_request`: the parsed body, or the raised
`HTTPException(status_code, detail)`. -/
inductive ForwardResult (α : Type) where
  | success (body : α)
  | httpError (code : Nat) (detail : String)
  deriving DecidableEq, Repr

/-- The `timeout=30.0` literal passed to `client.request` in
`forward_request` — the same constant for every HTTP method. -/
def forward_request_timeout (_method : String) : Nat := 30

/-- Function `forward_request` error translation.  Status ≥ 400 raises
`HTTPStatusError`, which is re-raised as an `HTTPException` with the
upstream `detail` field when the error body parses, the
`Atomic service error: <code>` default when it parses without one, and the
raw text otherwise.  `httpx.TimeoutException` is a subclass of
`httpx.RequestError`, so timeouts and connection failures reach the same
handler: `HTTPException(503, "Cannot connect to atomic service: ...")`. -/
def forward_request {α : Type} (o : UpstreamOutcome α) : ForwardResult α :=
  match o with
  | .resp code body errDetail rawText =>
      if code ≥ 400 then
        .httpError code
          (match errDetail with
           | some (some d) => d
           | some none => "Atomic service error: " ++ toString code
           | none => if rawText ≠ "" then rawText else "HTTPStatusError")
      else .success body
  | .timedOut msg =>
      .httpError 503 ("Cannot connect to atomic service: " ++ msg)
  | .connectFailed msg =>
      .httpError 503 ("Cannot connect to atomic service: " ++ msg)

/-! ## Identity resolution and auto-provisioning -/

/-- The claims `get_user_id_from_firebase_uid` reads from a decoded
identity token (`decoded_token.get("email"/"name"/"picture")`). -/
structure DecodedToken where
  email : Option String
  name : Option String
  picture : Option String
  deriving DecidableEq, Repr

/-- The provisioning record POSTed to `/users/sync` by the auto-sync
branch. -/
structure SyncData where
  first_name : String
  last_name : String
  username : String
  email : String
  profile_picture : Option String
  deriving DecidableEq, Repr

/-- The `sync_data` dict built by the auto-sync branch:
`name_parts = name.split() if name else []`;
`first_name = name_parts[0] if name_parts else email.split("@")[0]`;
`last_name = " ".join(name_parts[1:]) if len(name_parts) > 1 else ""`;
`username = email.split("@")[0]`. -/
def build_sync_data (email name : String) (picture : Option String) :
    SyncData :=
  let name_parts := if name ≠ "" then pySplitWs name else []
  let first_name :=
    match name_parts with
    | [] => emailLocalPart email
    | p :: _ => p
  let last_name :=
    if name_parts.length > 1 then " ".intercalate name_parts.tail else ""
  { first_name := first_name, last_name := last_name,
    username := emailLocalPart email, email := email,
    profile_picture := picture }

/-- Outcome of the `GET /users/me` call: 200 with the body's
`user.get("user_id")`, a non-200 status, or a raised exception. -/
inductive MeOutcome where
  | ok (user_id : Option Nat)
  | status (code : Nat)
  | raised (msg : String)
  deriving DecidableEq, Repr

/-- Outcome of the `POST /users/sync` call made by the auto-sync branch:
2xx with the body's `user_id`, another status, or a raised exception. -/
inductive SyncOutcome where
  | ok (user_id : Option Nat)
  | status (code : Nat)
  | raised (msg : String)
  deriving DecidableEq, Repr

/-- Timeout (seconds) on the `GET /users/me` and `POST /users/sync` calls
inside `get_user_id_from_firebase_uid`. -/
def users_me_timeout : Nat := 10

/-- What `get_user_id_from_firebase_uid` produced: the returned
`Option user_id`, plus the sync request it issued, if any (so theorems can
talk about whether a user creation was attempted and with which record). -/
structure ResolveResult where
  user_id : Option Nat
  sync_requested : Option SyncData
  deriving DecidableEq, Repr

/-- Resolution helper `get_user_id_from_firebase_uid`.  200 returns the body's id.  The
auto-sync branch runs only on a 404 **and** a provided `decoded_token`
whose email claim is truthy; it builds `sync_data` and POSTs it, returning
the new id on 200/201 and `None` otherwise.  Every other path (other
status, missing token, falsy email, raised exception) returns `None`. -/
def get_user_id_from_firebase_uid (me : MeOutcome)
    (decoded_token : Option DecodedToken) (syncO : SyncOutcome) :
    ResolveResult :=
  match me with
  | .ok uid => ⟨uid, none⟩
  | .status code =>
      if code = 404 then
        match decoded_token with
        | none => ⟨none, none⟩
        | some t =>
            let email := pyOrStr t.email ""
            let name := pyOrStr t.name ""
            let picture :=
              match t.picture with
              | some s => if s ≠ "" then some s else none
              | none => none
            if email ≠ "" then
              let sd := build_sync_data email name picture
              match syncO with
              | .ok uid => ⟨uid, some sd⟩
              | .status _ => ⟨none, some sd⟩
              | .raised _ => ⟨none, some sd⟩
            else ⟨none, none⟩
      else ⟨none, none⟩
  | .raised _ => ⟨none, none⟩

/-! ## `validate_user_exists` and the fan-out endpoints -/

/-- Timeout (seconds) on the `GET /users/` call inside
`validate_user_exists`. -/
def validate_user_timeout : Nat := 10

/-- Helper `validate_user_exists`: fetch the user list and check
`any(u.get("user_id") == user_id ...)`.  A non-200 response falls through
to `return False`, and **every** exception (connection failure, timeout,
...) is caught and also returns `False`. -/
def validate_user_exists (o : Branch (List UserRec)) (user_id : Nat) : Bool :=
  match o with
  | .ok users => users.any (fun u => u.user_id = some user_id)
  | _ => false

/-- Timeout (seconds) on each parallel branch fetch of
`get_user_feed` / `get_user_activity`. -/
def feed_branch_timeout : Nat := 10

/-- A value stored in the fan-out `results` dict: the initial `None`, a
user record, or a list of items (posts/events payloads are opaque here). -/
inductive FeedVal where
  | none_v
  | user_v (u : UserRec)
  | items_v (xs : List String)
  deriving DecidableEq, Repr

/-- The initial `results` dict of `get_user_feed`:
`{"user": None, "posts": [], "events": []}`. -/
def feedInit : PyDict FeedVal :=
  [("user", .none_v), ("posts", .items_v []), ("events", .items_v [])]

/-- The initial `results` dict of `get_user_activity`:
`{"user": None, "events": [], "posts": []}`. -/
def activityInit : PyDict FeedVal :=
  [("user", .none_v), ("events", .items_v []), ("posts", .items_v [])]

/-- The `fetch_user` thread body: on 200, scan the user list for the first
record with the requested id and store it under `"user"` (no record on a
miss); a non-200 response does nothing; an exception stores its message in
the `errors` dict. -/
def run_fetch_user (o : Branch (List UserRec)) (user_id : Nat)
    (results : PyDict FeedVal) (errors : PyDict String) :
    PyDict FeedVal × PyDict String :=
  match o with
  | .ok users =>
      match users.find? (fun u => u.user_id = some user_id) with
      | some u => (dictSet results "user" (.user_v u), errors)
      | none => (results, errors)
  | .httpStatus _ => (results, errors)
  | .raised m => (results, dictSet errors "user" m)

/-- The `fetch_posts` / `fetch_events` thread body for the dict key `k`:
on 200 store `data.get("items", [])` (the `Option` is the presence of the
`items` field); a non-200 response does nothing; an exception stores its
message in the `errors` dict. -/
def run_fetch_items (k : String) (o : Branch (Option (List String)))
    (results : PyDict FeedVal) (errors : PyDict String) :
    PyDict FeedVal × PyDict String :=
  match o with
  | .ok body => (dictSet results k (.items_v (body.getD [])), errors)
  | .httpStatus _ => (results, errors)
  | .raised m => (results, dictSet errors k m)

/-- The three parallel branches of `get_user_feed` joined into the final
`(results, errors)` pair.  The threads write disjoint keys of the two
dicts, so the concurrent execution is equivalent to this sequential
composition in thread-list order. -/
def feed_fanout_merge (user_id : Nat) (userO : Branch (List UserRec))
    (postsO eventsO : Branch (Option (List String))) :
    PyDict FeedVal × PyDict String :=
  let r1 := run_fetch_user userO user_id feedInit []
  let r2 := run_fetch_items "posts" postsO r1.1 r1.2
  run_fetch_items "events" eventsO r2.1 r2.2

/-- The three parallel branches of `get_user_activity` joined the same
way (thread order: user, events, posts). -/
def activity_fanout_merge (user_id : Nat) (userO : Branch (List UserRec))
    (eventsO postsO : Branch (Option (List String))) :
    PyDict FeedVal × PyDict String :=
  let r1 := run_fetch_user userO user_id activityInit []
  let r2 := run_fetch_items "events" eventsO r1.1 r1.2
  run_fetch_items "posts" postsO r2.1 r2.2

/-- Rendering of the `errors` dict inside the 500 detail
`f"Errors fetching data: ..."` (the brace-delimited Python dict repr is
abbreviated to a comma-separated key/message list). -/
def renderErrors (errors : PyDict String) : String :=
  ", ".intercalate (errors.map (fun p => p.1 ++ ": " ++ p.2))

/-- The HTTP response of `get_user_feed`. -/
inductive FeedResponse where
  | ok200 (user : UserRec) (posts events : List String)
  | err (code : Nat) (detail : String)
  deriving DecidableEq, Repr

/-- Status code of a `FeedResponse`. -/
def feedRespCode : FeedResponse → Nat
  | .ok200 _ _ _ => 200
  | .err code _ => code

/-- Extract the items stored under key `k` of a results dict. -/
def itemsOf (results : PyDict FeedVal) (k : String) : List String :=
  match dictGet results k with
  | some (.items_v xs) => xs
  | _ => []

/-- The run of a fan-out endpoint: its response plus the upstream calls it
issued, in order. -/
structure FeedRun where
  resp : FeedResponse
  calls : List String
  deriving DecidableEq, Repr

/-- Endpoint `GET /api/users/\x7buser_id\x7d/feed`.  Order of operations: extract the
identity (401 short-circuits before any upstream call); run
`validate_user_exists` and 404 before any thread starts when it is
negative; start the three branch threads and join them all; a non-empty
`errors` dict raises 500 `Errors fetching data`; a missing `"user"` entry
raises 404; otherwise respond 200 with the merged results. -/
def get_user_feed (state hdrLower hdrUpper : Option String) (user_id : Nat)
    (validateO userO : Branch (List UserRec))
    (postsO eventsO : Branch (Option (List String))) : FeedRun :=
  match get_firebase_uid_from_request state hdrLower hdrUpper with
  | .unauthorized401 =>
      ⟨.err 401 "Authentication required - x-firebase-uid header missing", []⟩
  | .ok _ =>
      if ¬ validate_user_exists validateO user_id then
        ⟨.err 404 "User not found", ["validate_user_exists"]⟩
      else
        let allCalls := ["validate_user_exists", "fetch_user", "fetch_posts",
                         "fetch_events"]
        let merged := feed_fanout_merge user_id userO postsO eventsO
        if merged.2 ≠ [] then
          ⟨.err 500 ("Errors fetching data: " ++ renderErrors merged.2),
           allCalls⟩
        else
          match dictGet merged.1 "user" with
          | some (.user_v u) =>
              ⟨.ok200 u (itemsOf merged.1 "posts") (itemsOf merged.1 "events"),
               allCalls⟩
          | _ => ⟨.err 404 "User not found", allCalls⟩

/-! ## `src/pubsub/publishers.py` and the create endpoints -/

/-- A JSON scalar in a request/response dict (the fields this code
inspects are numbers and strings; everything else it only passes through). -/
inductive JVal where
  | num (n : Nat)
  | str (s : String)
  | null
  deriving DecidableEq, Repr

/-- Python `int(x)` as used on `event_id_raw`: an int stays, a numeric
string converts, everything else raises `ValueError`/`TypeError` (and the
publish is skipped). -/
def jvalToInt : JVal → Option Nat
  | .num n => some n
  | .str s => s.toNat?
  | .null => none

/-- The process-wide publisher state an individual publish call sees:
whether the lazy client setup succeeded, the configured project id
(`""` = unset), and what `future.result(timeout=10)` comes back with
(`none` = the publish raised or timed out). -/
structure PubEnv where
  ready : Bool
  project_id : String
  publishOutcome : Option String
  deriving DecidableEq, Repr

/-- The message payload `publish_event_created` serializes (plus a
timestamp, elided here). -/
structure EventCreatedMsg where
  event_id : Nat
  user_id : Nat
  event_data : PyDict JVal
  deriving DecidableEq, Repr

/-- The message payload `publish_user_created` serializes (plus a
timestamp, elided here). -/
structure UserCreatedMsg where
  user_id : Nat
  firebase_uid : String
  email : String
  first_name : String
  role : String
  deriving DecidableEq, Repr

/-- Function `publish_event_created`: returns the transport's message id, or `None`
when the publisher is not ready, the project id is unset, or the publish /
its 10s wait raised — every failure mode is caught and logged inside the
function, which never raises. -/
def publish_event_created (env : PubEnv) (_msg : EventCreatedMsg) :
    Option String :=
  if ¬ env.ready then none
  else if env.project_id = "" then none
  else env.publishOutcome

/-- Function `publish_user_created`: identical failure handling to
`publish_event_created`. -/
def publish_user_created (env : PubEnv) (_msg : UserCreatedMsg) :
    Option String :=
  if ¬ env.ready then none
  else if env.project_id = "" then none
  else env.publishOutcome

/-- An endpoint's HTTP response: a success status with the (passed-through)
upstream body, or a raised `HTTPException`. -/
inductive EndpointResp where
  | ok (code : Nat) (result : PyDict JVal)
  | err (code : Nat) (detail : String)
  deriving DecidableEq, Repr

/-- Everything observable about one `POST /api/events` run: the response,
the body forwarded to the Events service (with `created_by` injected), the
sync request the resolution helper issued (if any), and the publish attempt
and its result. -/
structure CreateEventRun where
  resp : EndpointResp
  forwarded_event : Option (PyDict JVal)
  sync_requested : Option SyncData
  publish_attempt : Option EventCreatedMsg
  publish_result : Option String
  deriving DecidableEq, Repr

/-- Endpoint `POST /api/events` (`create_event`).  Identity extraction first (401
short-circuits); then `get_user_id_from_firebase_uid(firebase_uid, None,
None)` — the `decoded_token` argument is literally `None` at this call
site, so its auto-sync branch cannot run; a falsy resolved id raises 404
"complete your profile"; otherwise `created_by` is set on the event body
and the create is forwarded.  After a successful create, a parseable
integer `event_id` triggers `publish_event_created`, whose outcome — and
any exception around it — is only logged; the upstream result is returned
either way with status 201. -/
def create_event (state hdrLower hdrUpper : Option String)
    (me : MeOutcome) (syncO : SyncOutcome) (event : PyDict JVal)
    (up : UpstreamOutcome (PyDict JVal)) (pub : PubEnv) : CreateEventRun :=
  match get_firebase_uid_from_request state hdrLower hdrUpper with
  | .unauthorized401 =>
      ⟨.err 401 "Authentication required - x-firebase-uid header missing",
       none, none, none, none⟩
  | .ok _ =>
      let r := get_user_id_from_firebase_uid me none syncO
      if ¬ natTruthy r.user_id then
        ⟨.err 404 ("User not found. Please complete your profile setup " ++
            "first by visiting your profile page."),
         none, r.sync_requested, none, none⟩
      else
        let user_id := r.user_id.getD 0
        let body := dictSet event "created_by" (.num user_id)
        match forward_request up with
        | .httpError code detail =>
            ⟨.err code detail, some body, r.sync_requested, none, none⟩
        | .success result =>
            match dictGet result "event_id" with
            | none => ⟨.ok 201 result, some body, r.sync_requested, none, none⟩
            | some v =>
                match jvalToInt v with
                | none =>
                    ⟨.ok 201 result, some body, r.sync_requested, none, none⟩
                | some event_id =>
                    let msg : EventCreatedMsg := ⟨event_id, user_id, result⟩
                    ⟨.ok 201 result, some body, r.sync_requested, some msg,
                     publish_event_created pub msg⟩

/-- Everything observable about one `POST /api/users/sync` run. -/
structure SyncUserRun where
  resp : EndpointResp
  publish_attempt : Option UserCreatedMsg
  publish_result : Option String
  deriving DecidableEq, Repr

/-- String field getter `d.get(k, default)` (non-string values of these
fields are not produced by the services this code talks to). -/
def strField (d : PyDict JVal) (k : String) (dflt : String) : String :=
  match dictGet d k with
  | some (.str s) => s
  | _ => dflt

/-- Numeric field getter `d.get(k)`. -/
def natField (d : PyDict JVal) (k : String) : Option Nat :=
  match dictGet d k with
  | some (.num n) => some n
  | _ => none

/-- Endpoint `POST /api/users/sync` (`sync_user`).  The create is forwarded; when
the upstream body reports `status == "created"` with a truthy `user_id`
and a truthy email from the request body, `publish_user_created` is
invoked inside a try/except that only logs; the upstream result is
returned with status 201 in every publish outcome. -/
def sync_user (state hdrLower hdrUpper : Option String)
    (user_data : PyDict JVal) (up : UpstreamOutcome (PyDict JVal))
    (pub : PubEnv) : SyncUserRun :=
  match get_firebase_uid_from_request state hdrLower hdrUpper with
  | .unauthorized401 =>
      ⟨.err 401 "Authentication required - x-firebase-uid header missing",
       none, none⟩
  | .ok fb =>
      match forward_request up with
      | .httpError code detail => ⟨.err code detail, none, none⟩
      | .success result =>
          if dictGet result "status" = some (.str "created") then
            let user_id := natField result "user_id"
            let firebase_uid_result := strField result "firebase_uid" fb
            let email := strField user_data "email" ""
            let first_name := strField user_data "first_name" "User"
            let role := strField result "role" "user"
            if natTruthy user_id && (email ≠ "") then
              let msg : UserCreatedMsg :=
                ⟨user_id.getD 0, firebase_uid_result, email, first_name, role⟩
              ⟨.ok 201 result, some msg, publish_user_created pub msg⟩
            else ⟨.ok 201 result, none, none⟩
          else ⟨.ok 201 result, none, none⟩

/-! ## `src/cross_account_auth.py`: the identity-token cache -/

/-- The module-level `_token_cache`: url ↦ (token, timestamp). -/
abbrev TokenCache := List (String × String × Nat)

/-- Dict lookup in the token cache. -/
def cacheLookup : TokenCache → String → Option (String × Nat)
  | [], _ => none
  | (u, t, ts) :: rest, url =>
      if u = url then some (t, ts) else cacheLookup rest url

/-- Dict assignment `_token_cache[url] = (tok, now)`. -/
def cacheStore : TokenCache → String → String → Nat → TokenCache
  | [], url, tok, now => [(url, tok, now)]
  | (u, t, ts) :: rest, url, tok, now =>
      if u = url then (url, tok, now) :: rest
      else (u, t, ts) :: cacheStore rest url tok now

/-- Constant `_token_cache_ttl = 300`. -/
def token_cache_ttl : Nat := 300

/-- What `id_token.fetch_id_token` came back with: a string token, a
non-string value, or a raised exception. -/
inductive FetchOutcome where
  | fetchedTok (tok : String)
  | nonString
  | raised (msg : String)
  deriving DecidableEq, Repr

/-- Result of `get_identity_token`: the returned token, the cache contents
afterwards, and whether a network fetch was attempted. -/
structure TokenResult where
  token : String
  cache : TokenCache
  fetchAttempted : Bool
  deriving DecidableEq, Repr

/-- The fetch path of `get_identity_token`: a falsy or non-string token
returns `""` without caching; a non-empty string token is cached under the
url with the current time and returned; any exception returns `""` leaving
the cache untouched. -/
def fetch_and_cache_token (cache : TokenCache) (now : Nat) (url : String)
    (fetch : FetchOutcome) : TokenResult :=
  match fetch with
  | .fetchedTok s =>
      if s = "" then ⟨"", cache, true⟩
      else ⟨s, cacheStore cache url s now, true⟩
  | .nonString => ⟨"", cache, true⟩
  | .raised _ => ⟨"", cache, true⟩

/-- Function `get_identity_token`: a cache entry younger than the TTL is returned
with no fetch; otherwise (no entry, or a stale one) the fetch path runs. -/
def get_identity_token (cache : TokenCache) (now : Nat) (url : String)
    (fetch : FetchOutcome) : TokenResult :=
  match cacheLookup cache url with
  | some (tok, ts) =>
      if now - ts < token_cache_ttl then ⟨tok, cache, false⟩
      else fetch_and_cache_token cache now url fetch
  | none => fetch_and_cache_token cache now url fetch

/-! ## Theorems -/

/-- C1 (counterexample): a delivered event-created message for a user with
an email on file, where the email collaborator reports failure
(`send_email` returns `False`), is **acknowledged**, not negatively
acknowledged — the claim that an email-dispatch failure causes a nack and
redelivery is false.  The trace ends with `acked` and contains no
`nacked`. -/
theorem c1_email_failure_still_acked :
    handle_event_created (some ⟨some 5, some 42⟩)
        (fun _ => .ok ⟨some 42, some "a@b.com", some "Ann"⟩) false
      = [SubStep.parsed, SubStep.lookedUp 42,
         SubStep.emailDispatched "a@b.com" false, SubStep.acked] ∧
    SubStep.nacked ∉
      handle_event_created (some ⟨some 5, some 42⟩)
        (fun _ => .ok ⟨some 42, some "a@b.com", some "Ann"⟩) false := by
  constructor
  · rfl
  · intro h
    simp [handle_event_created, natTruthy, get_user_by_id, strTruthy] at h

/-- C1 (amended): the message is acknowledged only after the whole handling
sequence completes — `acked` never occurs before the final step — and a
malformed body is the (modelled) handling exception that negatively
acknowledges; but the email collaborator reporting failure does not change
the decision: the final step is the same whether `send_email` returned
`False` or `True`, and any delivered well-formed message ends in `acked`. -/
theorem c1_ack_only_after_whole_handling (body : Option EventMsgBody)
    (lookupO : Nat → Branch UserRec) :
    (handle_event_created body lookupO false).getLast?
      = (handle_event_created body lookupO true).getLast? ∧
    (handle_event_created body lookupO false).getLast?
      = some (if body.isNone then SubStep.nacked else SubStep.acked) ∧
    SubStep.acked ∉ (handle_event_created body lookupO false).dropLast ∧
    SubStep.acked ∉ (handle_event_created body lookupO true).dropLast := by
  rcases body with _ | m
  · simp [handle_event_created]
  · by_cases h1 : natTruthy m.user_id
    · cases hu : get_user_by_id (lookupO (m.user_id.getD 0)) with
      | none => simp [handle_event_created, h1, hu]
      | some user =>
          by_cases h2 : strTruthy user.email <;>
            simp [handle_event_created, h1, hu, h2]
    · simp [handle_event_created, h1]

/-- C4: a delivered message whose body is not valid JSON is negatively
acknowledged by both subscribe-side handlers — the trace is exactly the
nack, and neither handler ever acknowledges such a message — for every
lookup environment and email outcome. -/
theorem c4_malformed_body_always_nacked (lookupO : Nat → Branch UserRec)
    (emailOk emailOk' : Bool) :
    handle_event_created none lookupO emailOk = [SubStep.nacked] ∧
    handle_user_created none emailOk' = [SubStep.nacked] ∧
    SubStep.acked ∉ handle_event_created none lookupO emailOk ∧
    SubStep.acked ∉ handle_user_created none emailOk' := by
  refine ⟨rfl, rfl, ?_, ?_⟩ <;> simp [handle_event_created, handle_user_created]

/-- C9: with no `firebase_uid` on the request state, the identity helper
falls back to the raw `x-firebase-uid` header (then `X-Firebase-Uid`) and
returns the header value as the caller identity — the function performs no
verification of it — and 401 is raised exactly when the state field and
both header spellings are all absent (falsy). -/
theorem c9_header_fallback_unverified (state h1 h2 : Option String) :
    (strTruthy state = false → strTruthy h1 = true →
      get_firebase_uid_from_request state h1 h2 = .ok (h1.getD "")) ∧
    (strTruthy state = false → strTruthy h1 = false → strTruthy h2 = true →
      get_firebase_uid_from_request state h1 h2 = .ok (h2.getD "")) ∧
    (strTruthy state = true →
      get_firebase_uid_from_request state h1 h2 = .ok (state.getD "")) ∧
    (get_firebase_uid_from_request state h1 h2 = .unauthorized401 ↔
      strTruthy state = false ∧ strTruthy h1 = false ∧ strTruthy h2 = false) := by
  unfold get_firebase_uid_from_request pyOr
  rcases state with _ | s <;> rcases h1 with _ | a <;> rcases h2 with _ | b <;>
    simp [strTruthy] <;> split_ifs <;> simp_all

/-- Witness for C9 at a concrete input: state absent, lowercase header
present. -/
theorem c9_header_fallback_unverified_witness :
    get_firebase_uid_from_request none (some "uid-1") none = .ok "uid-1" :=
  (c9_header_fallback_unverified none (some "uid-1") none).1 (by decide)
    (by decide)

/-- The fetch path of `get_identity_token` always fetches, caches exactly
the successfully fetched non-empty string token under the url with the
current time, and on every failure returns `""` with the cache unchanged. -/
theorem fetch_and_cache_token_spec (cache : TokenCache) (now : Nat)
    (url : String) (fetch : FetchOutcome) :
    (fetch_and_cache_token cache now url fetch).fetchAttempted = true ∧
    (∀ s, fetch = .fetchedTok s → s ≠ "" →
      fetch_and_cache_token cache now url fetch
        = ⟨s, cacheStore cache url s now, true⟩) ∧
    ((fetch = .fetchedTok "" ∨ fetch = .nonString ∨ ∃ m, fetch = .raised m) →
      fetch_and_cache_token cache now url fetch = ⟨"", cache, true⟩) := by
  refine ⟨?_, ?_, ?_⟩ <;> cases fetch <;> simp [fetch_and_cache_token] <;>
    first
      | (split <;> simp_all)
      | (intro h; simp_all)

/-- C10: a token cached for the target url strictly less than 300 seconds
ago is returned with no fetch and no cache change; otherwise (no entry or
only a stale one) a fetch is attempted and, on success, the token is
stored under the url with the current time, while every fetch failure
(falsy token, non-string token, raised exception) returns `""` and leaves
the cache unchanged. -/
theorem c10_token_cache_behavior (cache : TokenCache) (now : Nat)
    (url : String) (fetch : FetchOutcome) :
    (∀ tok ts, cacheLookup cache url = some (tok, ts) →
      now - ts < token_cache_ttl →
      get_identity_token cache now url fetch = ⟨tok, cache, false⟩) ∧
    ((∀ tok ts, cacheLookup cache url = some (tok, ts) →
        ¬ (now - ts < token_cache_ttl)) →
      (get_identity_token cache now url fetch).fetchAttempted = true ∧
      (∀ s, fetch = .fetchedTok s → s ≠ "" →
        get_identity_token cache now url fetch
          = ⟨s, cacheStore cache url s now, true⟩) ∧
      ((fetch = .fetchedTok "" ∨ fetch = .nonString ∨
          ∃ m, fetch = .raised m) →
        get_identity_token cache now url fetch = ⟨"", cache, true⟩)) := by
  constructor
  · intro tok ts hlook hfresh
    simp [get_identity_token, hlook, hfresh]
  · intro hstale
    have hfc := fetch_and_cache_token_spec cache now url fetch
    cases hlook : cacheLookup cache url with
    | none => simpa [get_identity_token, hlook] using hfc
    | some p =>
        obtain ⟨tok, ts⟩ := p
        have hns := hstale tok ts hlook
        simpa [get_identity_token, hlook, if_neg hns] using hfc

/-- Witness for C10 at a concrete input: a 90-second-old cache entry is
served without fetching even though the fetch oracle would raise. -/
theorem c10_token_cache_behavior_witness :
    get_identity_token [("https://svc", "tok0", 10)] 100 "https://svc"
        (.raised "boom")
      = ⟨"tok0", [("https://svc", "tok0", 10)], false⟩ :=
  (c10_token_cache_behavior [("https://svc", "tok0", 10)] 100 "https://svc"
      (.raised "boom")).1 "tok0" 10 (by decide) (by decide)

/-- Updating a key that is already present leaves the key list unchanged. -/
theorem dictKeys_dictSet_mem {α : Type} (d : PyDict α) (k : String) (v : α)
    (h : k ∈ dictKeys d) : dictKeys (dictSet d k v) = dictKeys d := by
  induction d with
  | nil => simp [dictKeys] at h
  | cons p rest ih =>
      obtain ⟨k0, v0⟩ := p
      by_cases hk : k0 = k
      · simp [dictSet, hk, dictKeys]
      · have h' : k ∈ dictKeys rest := by
          simp only [dictKeys, List.map_cons, List.mem_cons] at h
          rcases h with h0 | h0
          · exact absurd h0.symm hk
          · exact h0
        have hrec := ih h'
        simp only [dictKeys, List.map_cons] at hrec ⊢
        simp [dictSet, hk, hrec]

/-- Assigning a fresh key appends it to the key list. -/
theorem dictKeys_dictSet_not_mem {α : Type} (d : PyDict α) (k : String)
    (v : α) (h : k ∉ dictKeys d) :
    dictKeys (dictSet d k v) = dictKeys d ++ [k] := by
  induction d with
  | nil => simp [dictSet, dictKeys]
  | cons p rest ih =>
      obtain ⟨k0, v0⟩ := p
      simp only [dictKeys, List.map_cons, List.mem_cons, not_or] at h
      obtain ⟨hne, h'⟩ := h
      have hk : k0 ≠ k := fun hEq => hne hEq.symm
      have hrec := ih h'
      simp only [dictKeys, List.map_cons] at hrec ⊢
      simp [dictSet, hk, hrec]

/-- A dict assignment never produces the empty dict. -/
theorem dictSet_ne_nil {α : Type} (d : PyDict α) (k : String) (v : α) :
    dictSet d k v ≠ [] := by
  cases d with
  | nil => simp [dictSet]
  | cons p rest =>
      obtain ⟨k0, v0⟩ := p
      by_cases hk : k0 = k <;> simp [dictSet, hk]

/-- C5: for a feed request whose path user id matches no user known to the
Users service, `get_user_feed` responds 404 after the single existence
query and issues none of the three parallel branch calls. -/
theorem c5_feed_404_before_fanout (state h1 h2 : Option String) (uid : Nat)
    (users : List UserRec) (userO : Branch (List UserRec))
    (postsO eventsO : Branch (Option (List String)))
    (hauth : strTruthy state = true)
    (hmiss : ∀ u ∈ users, u.user_id ≠ some uid) :
    get_user_feed state h1 h2 uid (.ok users) userO postsO eventsO
      = ⟨.err 404 "User not found", ["validate_user_exists"]⟩ := by
  have hv : validate_user_exists (.ok users) uid = false := by
    simp only [validate_user_exists, List.any_eq_false, decide_eq_true_eq]
    exact hmiss
  rcases state with _ | s
  · simp [strTruthy] at hauth
  · have hs : s ≠ "" := by simpa [strTruthy] using hauth
    simp [get_user_feed, get_firebase_uid_from_request, strTruthy, hs, hv]

/-- Witness for C5 at a concrete input: the only known user has id 2 and
the path asks for id 1. -/
theorem c5_feed_404_before_fanout_witness :
    get_user_feed (some "u") none none 1 (.ok [⟨some 2, none, none⟩])
        (.ok []) (.ok none) (.ok none)
      = ⟨.err 404 "User not found", ["validate_user_exists"]⟩ :=
  c5_feed_404_before_fanout (some "u") none none 1 [⟨some 2, none, none⟩]
    (.ok []) (.ok none) (.ok none) (by decide) (by decide)

/-- C2 (counterexample): in the user-feed fan-out, the posts branch coming
back with an HTTP 503 response is a failed branch
(`branchFailed = true`), yet the merged error map is empty — no failure
mark anywhere — and the endpoint responds with a plain success carrying an
empty posts list.  This falsifies "never an unmarked failed branch". -/
theorem c2_unmarked_failed_branch :
    branchFailed (Branch.httpStatus 503 : Branch (Option (List String)))
      = true ∧
    dictKeys (feed_fanout_merge 1 (.ok [⟨some 1, none, none⟩])
        (.httpStatus 503) (.ok (some []))).2 = [] ∧
    (get_user_feed (some "u") none none 1 (.ok [⟨some 1, none, none⟩])
        (.ok [⟨some 1, none, none⟩]) (.httpStatus 503) (.ok (some []))).resp
      = .ok200 ⟨some 1, none, none⟩ [] [] :=
  ⟨rfl, rfl, rfl⟩

/-- C2 (amended): the results map of either fan-out always holds exactly
the k requested keys in branch order — never fewer — and the error map's
keys are exactly the branches whose call **raised an exception**; a branch
that merely received a non-200 response is left at its initialized default
with no failure mark, indistinguishable from an empty success. -/
theorem c2_merge_keys_and_error_marks (uid : Nat)
    (userO : Branch (List UserRec))
    (postsO eventsO : Branch (Option (List String))) :
    dictKeys (feed_fanout_merge uid userO postsO eventsO).1
      = ["user", "posts", "events"] ∧
    dictKeys (feed_fanout_merge uid userO postsO eventsO).2
      = ((if branchRaised userO then ["user"] else []) ++
         (if branchRaised postsO then ["posts"] else []) ++
         (if branchRaised eventsO then ["events"] else [])) ∧
    dictKeys (activity_fanout_merge uid userO eventsO postsO).1
      = ["user", "events", "posts"] ∧
    dictKeys (activity_fanout_merge uid userO eventsO postsO).2
      = ((if branchRaised userO then ["user"] else []) ++
         (if branchRaised eventsO then ["events"] else []) ++
         (if branchRaised postsO then ["posts"] else [])) := by
  refine ⟨?_, ?_, ?_, ?_⟩ <;>
    (cases userO with
     | ok users =>
         cases h : users.find? (fun u => u.user_id = some uid) <;>
           cases postsO <;> cases eventsO <;>
             simp [feed_fanout_merge, activity_fanout_merge, run_fetch_user,
               run_fetch_items, feedInit, activityInit, dictSet, dictKeys,
               branchRaised, h]
     | httpStatus c =>
         cases postsO <;> cases eventsO <;>
           simp [feed_fanout_merge, activity_fanout_merge, run_fetch_user,
             run_fetch_items, feedInit, activityInit, dictSet, dictKeys,
             branchRaised]
     | raised m =>
         cases postsO <;> cases eventsO <;>
           simp [feed_fanout_merge, activity_fanout_merge, run_fetch_user,
             run_fetch_items, feedInit, activityInit, dictSet, dictKeys,
             branchRaised])

/-- C7 (counterexample): the shared forwarding helper passes the same
30-second timeout for a GET read — not the claimed 10 — and a timeout
exception produces the very same 503 error as a connection failure, so no
`UpstreamTimeout` distinct from `Unreachable` exists. -/
theorem c7_read_timeout_not_ten_and_not_distinct :
    forward_request_timeout "GET" = 30 ∧
    forward_request_timeout "GET" ≠ 10 ∧
    forward_request (α := PyDict JVal) (.timedOut "read timed out")
      = forward_request (α := PyDict JVal) (.connectFailed "read timed out") ∧
    forward_request (α := PyDict JVal) (.timedOut "read timed out")
      = .httpError 503 "Cannot connect to atomic service: read timed out" :=
  ⟨rfl, by decide, rfl, rfl⟩

/-- C7 (amended): every upstream call is bounded by an explicit timeout,
but the constants are: 30 s in `forward_request` for **every** method
(reads included), 10 s in the direct read helpers (`/users/me` lookup,
existence validation, fan-out branches) and 5 s in the subscriber's user
lookup; and an elapsed timeout surfaces as the same
`503 Cannot connect to atomic service` error as a connection failure
rather than as a distinct timeout error. -/
theorem c7_explicit_timeouts_same_503 (method msg : String) :
    forward_request_timeout method = 30 ∧
    forward_request (α := PyDict JVal) (.timedOut msg)
      = .httpError 503 ("Cannot connect to atomic service: " ++ msg) ∧
    forward_request (α := PyDict JVal) (.connectFailed msg)
      = .httpError 503 ("Cannot connect to atomic service: " ++ msg) ∧
    users_me_timeout = 10 ∧ validate_user_timeout = 10 ∧
    feed_branch_timeout = 10 ∧ get_user_by_id_timeout = 5 :=
  ⟨rfl, rfl, rfl, rfl, rfl, rfl, rfl⟩

/-- An items branch never empties a non-empty error dict. -/
theorem run_fetch_items_snd_ne_nil (k : String)
    (o : Branch (Option (List String))) (r : PyDict FeedVal)
    (e : PyDict String) (h : e ≠ []) : (run_fetch_items k o r e).2 ≠ [] := by
  cases o <;> simp [run_fetch_items, h, dictSet_ne_nil]

/-- C8 (counterexample): a feed request whose pre-fan-out existence check
hits an unreachable Users service (the validation call raises a connection
error) responds 404, not the claimed 503: `validate_user_exists` swallows
every exception as "user does not exist". -/
theorem c8_unreachable_existence_check_gives_404 :
    (get_user_feed (some "u") none none 1
        (.raised "All connection attempts failed") (.ok []) (.ok none)
        (.ok none)).resp = .err 404 "User not found" ∧
    feedRespCode ((get_user_feed (some "u") none none 1
        (.raised "All connection attempts failed") (.ok []) (.ok none)
        (.ok none)).resp) ≠ 503 :=
  ⟨rfl, by decide⟩

/-- C8 (amended): an unreachable upstream yields 503 on the delegate
path (`forward_request`); but on a fan-out endpoint it yields 404 when it
hits the pre-fan-out existence check, and 500 `Errors fetching data` when
it hits a branch after a successful check. -/
theorem c8_unreachable_status_by_path (msg : String) (uid : Nat)
    (userO : Branch (List UserRec))
    (postsO eventsO : Branch (Option (List String))) :
    forward_request (α := PyDict JVal) (.connectFailed msg)
      = .httpError 503 ("Cannot connect to atomic service: " ++ msg) ∧
    get_user_feed (some "u") none none uid (.raised msg) userO postsO eventsO
      = ⟨.err 404 "User not found", ["validate_user_exists"]⟩ ∧
    feedRespCode (get_user_feed (some "u") none none uid
        (.ok [⟨some uid, none, none⟩]) userO (.raised msg) eventsO).resp
      = 500 := by
  refine ⟨rfl, ?_, ?_⟩
  · simp [get_user_feed, get_firebase_uid_from_request, strTruthy,
      validate_user_exists]
  · have hv : validate_user_exists (.ok [⟨some uid, none, none⟩]) uid
        = true := by
      simp [validate_user_exists]
    have hne : (feed_fanout_merge uid userO (.raised msg) eventsO).2 ≠ [] := by
      refine run_fetch_items_snd_ne_nil "events" eventsO _ _ ?_
      exact dictSet_ne_nil _ _ _
    simp only [get_user_feed, get_firebase_uid_from_request, strTruthy]
    simp [hv, if_pos hne, feedRespCode]

/-- C3: the resolution helper's auto-sync branch, if it were given the
decoded token of the scenario (email `c@d.com`, display name `Cara D`),
would synthesize exactly the claimed record — first name `Cara`, last name
`D`, username `c` — and return the newly minted id.  But `create_event`
invokes the helper with `decoded_token = None`, so on the very same
scenario (`/users/me` → 404, the Users service ready to accept a sync) the
endpoint issues no sync request, creates nothing, and responds 404
"complete your profile", contradicting the helper's own documented
"auto-syncs if user doesn't exist" behavior. -/
theorem c3_create_event_never_auto_provisions :
    get_user_id_from_firebase_uid (.status 404)
        (some ⟨some "c@d.com", some "Cara D", none⟩) (.ok (some 9))
      = ⟨some 9, some ⟨"Cara", "D", "c", "c@d.com", none⟩⟩ ∧
    create_event (some "u1") none none (.status 404) (.ok (some 9)) []
        (.resp 201 [("event_id", .num 1)] none "") ⟨true, "p", some "mid"⟩
      = ⟨.err 404 ("User not found. Please complete your profile setup " ++
          "first by visiting your profile page."), none, none, none, none⟩ := by
  constructor <;> rfl

/-- C6: once the upstream create has succeeded, the publish side channel
never alters the operation's response: for both `POST /api/events` and
`POST /api/users/sync` the response is identical under every publisher
state (uninitialized, missing project id, publish exception, success),
and with a successful upstream create the endpoints return the created
resource with the 201 success status whatever the publisher state is. -/
theorem c6_publish_failure_never_changes_response
    (state h1 h2 : Option String) (me : MeOutcome) (syncO : SyncOutcome)
    (event user_data result : PyDict JVal)
    (up : UpstreamOutcome (PyDict JVal)) (pub pub' : PubEnv) :
    (create_event state h1 h2 me syncO event up pub).resp
      = (create_event state h1 h2 me syncO event up pub').resp ∧
    (sync_user state h1 h2 user_data up pub).resp
      = (sync_user state h1 h2 user_data up pub').resp ∧
    (create_event (some "u") none none (.ok (some 7)) syncO event
        (.resp 201 result none "") pub).resp = .ok 201 result ∧
    (sync_user (some "u") none none user_data (.resp 201 result none "")
        pub).resp = .ok 201 result := by
  refine ⟨?_, ?_, ?_, ?_⟩
  · unfold create_event
    cases get_firebase_uid_from_request state h1 h2 with
    | unauthorized401 => rfl
    | ok fb =>
        by_cases hr :
            natTruthy (get_user_id_from_firebase_uid me none syncO).user_id
        · simp only [hr, not_true, if_neg, ite_false]
          cases forward_request up with
          | httpError c d => rfl
          | success res =>
              dsimp only
              cases dictGet res "event_id" with
              | none => rfl
              | some v =>
                  dsimp only
                  cases jvalToInt v <;> rfl
        · simp [hr]
  · unfold sync_user
    cases get_firebase_uid_from_request state h1 h2 with
    | unauthorized401 => rfl
    | ok fb =>
        cases forward_request up with
        | httpError c d => rfl
        | success res =>
            dsimp only
            split
            · split <;> rfl
            · rfl
  · rcases hd : dictGet result "event_id" with _ | v
    · simp [create_event, get_firebase_uid_from_request, strTruthy,
        get_user_id_from_firebase_uid, natTruthy, forward_request, hd]
    · rcases hv : jvalToInt v with _ | n <;>
        simp [create_event, get_firebase_uid_from_request, strTruthy,
          get_user_id_from_firebase_uid, natTruthy, forward_request, hd, hv]
  · show (sync_user (some "u") none none user_data
        (.resp 201 result none "") pub).resp = .ok 201 result
    unfold sync_user
    have hfw : forward_request (α := PyDict JVal) (.resp 201 result none "")
        = .success result := rfl
    rw [show get_firebase_uid_from_request (some "u") none none
        = .ok "u" from rfl, hfw]
    dsimp only
    split
    · split <;> rfl
    · rfl

end MainBackend
